import Mathlib

/-!
Verification of the order/payment/loyalty subsystem of the
`cherrylconcept-api` repository (Django e-commerce backend).

The embedding below is a shallow model of `orders/models.py`,
`orders/paystack_utils.py`, `orders/serializers.py` and
`orders/views.py`.  Monetary amounts (Django `DecimalField`) are
modelled as `Rat`; Python integers as `Int`; database tables as lists
of rows keyed by their unique column; Celery `.delay(...)` enqueues as
appends to queue lists; the external Paystack verify call as a
function parameter returning `Except` (an `error` models a raised
exception / gateway failure).  Two Django behaviours matter for the
webhook code and are modelled as `Except.error`: `save(update_fields=[...])`
raises `ValueError` when a listed name is not a concrete field of the
model, and `Model(**kwargs)` raises `TypeError` on an unknown keyword
argument (`get_or_create`'s create branch).  Purely descriptive columns that no
claim touches (address snapshot text, phone numbers, uuid primary
keys, timestamps other than those the code writes) are elided;
`timezone.now()` is passed in as an abstract clock value.
-/

namespace Cherryl

/-- Order row, from `orders/models.py` class `Order`.  Fields carry the
model's defaults (`status`/`payment_status` start `pending`, loyalty
counters 0, `loyalty_points_awarded` false). -/
structure Order where
  payment_reference : String
  order_number : String := ""
  user : Option String := none
  customer_email : String := ""
  subtotal : Rat := 0
  shipping_fee : Rat := 0
  tax_amount : Rat := 0
  total_amount : Rat := 0
  currency : String := "NGN"
  payment_status : String := "pending"
  status : String := "pending"
  payment_method : String := ""
  paid_amount : Option Rat := none
  payment_date : Option Nat := none
  loyalty_points_earned : Int := 0
  loyalty_points_used : Int := 0
  loyalty_points_awarded : Bool := false
  deriving DecidableEq

/-- Loyalty account row, from `orders/models.py` class `LoyaltyAccount`
(one per user, keyed by `user`). -/
structure LoyaltyAccount where
  user : String
  total_points_earned : Int := 0
  total_points_used : Int := 0
  current_balance : Int := 0
  tier : String := "Bronze"
  deriving DecidableEq

/-- Ledger row, from `orders/models.py` class `LoyaltyTransaction`.
`account` is the owning account's user key and `order_ref` the linked
order's `payment_reference` (the foreign keys of the source model). -/
structure LoyaltyTransaction where
  account : String
  transaction_type : String
  points : Int
  order_ref : Option String := none
  description : String := ""
  deriving DecidableEq

/-- From `LoyaltyAccount.update_tier`: recomputes `tier` from
`total_points_earned` (≥10000 Platinum, ≥5000 Gold, ≥1000 Silver,
else Bronze). -/
def LoyaltyAccount.update_tier (a : LoyaltyAccount) : LoyaltyAccount :=
  { a with tier :=
      if a.total_points_earned ≥ 10000 then "Platinum"
      else if a.total_points_earned ≥ 5000 then "Gold"
      else if a.total_points_earned ≥ 1000 then "Silver"
      else "Bronze" }

/-- Order-number text used in ledger descriptions
(`order.order_number if order else 'N/A'`). -/
def orderNumberText (order : Option Order) : String :=
  match order with
  | some o => o.order_number
  | none => "N/A"

/-- From `LoyaltyAccount.add_points`: increments earned and balance,
recomputes tier, and appends an `earned` ledger row.  Returns the
updated account together with the created transaction. -/
def LoyaltyAccount.add_points (a : LoyaltyAccount) (points : Int) (order : Option Order) :
    LoyaltyAccount × LoyaltyTransaction :=
  let a' := { a with total_points_earned := a.total_points_earned + points,
                     current_balance := a.current_balance + points }
  (a'.update_tier,
   { account := a.user, transaction_type := "earned", points := points,
     order_ref := order.map (fun o => o.payment_reference),
     description := "Points earned from order " ++ orderNumberText order })

/-- From `LoyaltyAccount.use_points`: if `current_balance >= points`,
debits the balance, increments used, and appends a `used` ledger row,
returning `true`; otherwise returns `false` with no mutation and no
ledger row.  (`use_points` does not recompute the tier.) -/
def LoyaltyAccount.use_points (a : LoyaltyAccount) (points : Int) (order : Option Order) :
    Bool × LoyaltyAccount × Option LoyaltyTransaction :=
  if a.current_balance ≥ points then
    (true,
     { a with total_points_used := a.total_points_used + points,
              current_balance := a.current_balance - points },
     some { account := a.user, transaction_type := "used", points := points,
            order_ref := order.map (fun o => o.payment_reference),
            description := "Points used for order " ++ orderNumberText order })
  else (false, a, none)

/-- From `LoyaltyAccount.reverse_used_points`: credits the balance
back, decrements used, recomputes tier, and appends a `reversal`
ledger row. -/
def LoyaltyAccount.reverse_used_points (a : LoyaltyAccount) (points : Int) (order : Option Order) :
    LoyaltyAccount × LoyaltyTransaction :=
  let a' := { a with total_points_used := a.total_points_used - points,
                     current_balance := a.current_balance + points }
  (a'.update_tier,
   { account := a.user, transaction_type := "reversal", points := points,
     order_ref := order.map (fun o => o.payment_reference),
     description := "Points reversed for failed order " ++ orderNumberText order })

/-- One loyalty-ledger operation, for stating the C6 invariant over
arbitrary operation sequences. -/
inductive LoyaltyOp where
  | add (points : Int)
  | use (points : Int)
  | reverse (points : Int)
  deriving DecidableEq

/-- Point amount carried by a loyalty operation. -/
def LoyaltyOp.points : LoyaltyOp → Int
  | .add p => p
  | .use p => p
  | .reverse p => p

/-- Applies one loyalty operation to an (account, ledger) pair, the
way the source methods mutate the account row and insert a
`LoyaltyTransaction` row. -/
def applyLoyaltyOp (s : LoyaltyAccount × List LoyaltyTransaction) :
    LoyaltyOp → LoyaltyAccount × List LoyaltyTransaction
  | .add p =>
    let r := s.1.add_points p none
    (r.1, s.2 ++ [r.2])
  | .use p =>
    let r := s.1.use_points p none
    match r.2.2 with
    | some tx => (r.2.1, s.2 ++ [tx])
    | none => (r.2.1, s.2)
  | .reverse p =>
    let r := s.1.reverse_used_points p none
    (r.1, s.2 ++ [r.2])

/-- A finite sequence of loyalty operations, applied left to right. -/
def applyLoyaltyOps (s : LoyaltyAccount × List LoyaltyTransaction) (ops : List LoyaltyOp) :
    LoyaltyAccount × List LoyaltyTransaction :=
  ops.foldl applyLoyaltyOp s

/-- The claimed account invariant: the balance equals earned minus
used, and the balance is non-negative. -/
def balanceInvariant (a : LoyaltyAccount) : Prop :=
  a.current_balance = a.total_points_earned - a.total_points_used ∧ 0 ≤ a.current_balance

theorem update_tier_current_balance (a : LoyaltyAccount) :
    (a.update_tier).current_balance = a.current_balance := rfl

theorem update_tier_total_points_earned (a : LoyaltyAccount) :
    (a.update_tier).total_points_earned = a.total_points_earned := rfl

theorem update_tier_total_points_used (a : LoyaltyAccount) :
    (a.update_tier).total_points_used = a.total_points_used := rfl

/-- One step of the C6 invariant: every single loyalty operation with a
non-negative point amount preserves the balance invariant. -/
theorem applyLoyaltyOp_invariant (s : LoyaltyAccount × List LoyaltyTransaction)
    (op : LoyaltyOp) (hp : 0 ≤ op.points) (hinv : balanceInvariant s.1) :
    balanceInvariant (applyLoyaltyOp s op).1 := by
  unfold balanceInvariant at hinv ⊢
  obtain ⟨heq, hge⟩ := hinv
  cases op with
  | add p =>
    simp only [LoyaltyOp.points] at hp
    simp [applyLoyaltyOp, LoyaltyAccount.add_points, LoyaltyAccount.update_tier]
    omega
  | use p =>
    simp only [LoyaltyOp.points] at hp
    by_cases h : s.1.current_balance ≥ p <;>
      simp [applyLoyaltyOp, LoyaltyAccount.use_points, h] <;> omega
  | reverse p =>
    simp only [LoyaltyOp.points] at hp
    simp [applyLoyaltyOp, LoyaltyAccount.reverse_used_points, LoyaltyAccount.update_tier]
    omega

/-- C6: for every loyalty account satisfying the balance invariant and
every finite sequence of AddPoints / UsePoints / ReverseUsedPoints
operations with non-negative point amounts (the model's point columns
are non-negative `PositiveIntegerField`s), the invariant
`current_balance = total_points_earned - total_points_used` still
holds after the sequence, and the balance is never negative.  Since
the statement quantifies over every sequence, it in particular holds
after every prefix, i.e. after each operation. -/
theorem loyalty_invariant_holds (ops : List LoyaltyOp)
    (hops : ∀ op ∈ ops, 0 ≤ op.points)
    (s : LoyaltyAccount × List LoyaltyTransaction)
    (hinv : balanceInvariant s.1) :
    balanceInvariant (applyLoyaltyOps s ops).1 := by
  induction ops generalizing s with
  | nil => exact hinv
  | cons op rest ih =>
    have h1 : 0 ≤ op.points := hops op (List.mem_cons_self op rest)
    have h2 : ∀ o ∈ rest, 0 ≤ o.points := fun o ho => hops o (List.mem_cons_of_mem op ho)
    exact ih h2 (applyLoyaltyOp s op) (applyLoyaltyOp_invariant s op h1 hinv)

/-- Witness for C6 at a concrete account and operation sequence. -/
theorem loyalty_invariant_holds_witness :
    balanceInvariant (applyLoyaltyOps ({ user := "u1" }, [])
      [LoyaltyOp.add 100, LoyaltyOp.use 30, LoyaltyOp.reverse 30]).1 :=
  loyalty_invariant_holds _ (by decide) _ ⟨rfl, by decide⟩

/-- C7: `use_points` fails (returns `false`) with no field mutation and
no ledger row when asked for more points than the current balance;
otherwise it debits the balance, increments `total_points_used`,
leaves `total_points_earned` alone, appends one `used` transaction and
returns `true`; in both cases a non-negative balance stays
non-negative, so the balance never goes below zero. -/
theorem use_points_spec (a : LoyaltyAccount) (p : Int) (order : Option Order)
    (hp : 0 ≤ p) (hbal : 0 ≤ a.current_balance) :
    (a.current_balance < p → a.use_points p order = (false, a, none)) ∧
    (p ≤ a.current_balance →
      (a.use_points p order).1 = true ∧
      (a.use_points p order).2.1.current_balance = a.current_balance - p ∧
      (a.use_points p order).2.1.total_points_used = a.total_points_used + p ∧
      (a.use_points p order).2.1.total_points_earned = a.total_points_earned ∧
      ∃ tx, (a.use_points p order).2.2 = some tx ∧
        tx.transaction_type = "used" ∧ tx.points = p ∧ tx.account = a.user) ∧
    0 ≤ (a.use_points p order).2.1.current_balance := by
  refine ⟨?_, ?_, ?_⟩
  · intro h
    have hn : ¬ a.current_balance ≥ p := by omega
    simp [LoyaltyAccount.use_points, hn]
  · intro h
    have hy : a.current_balance ≥ p := h
    refine ⟨?_, ?_, ?_, ?_, ?_⟩ <;> simp [LoyaltyAccount.use_points, hy]
  · by_cases hy : a.current_balance ≥ p <;> simp [LoyaltyAccount.use_points, hy] <;> omega

/-- Concrete account used by the C7 witness: 500 points available. -/
def acct500 : LoyaltyAccount :=
  { user := "u9", total_points_earned := 500, current_balance := 500 }

/-- Witness for C7 at a concrete account: a 500-point balance cannot
spend 600 points (no mutation, no ledger row), and the resulting
balance is still non-negative. -/
theorem use_points_spec_witness :
    (acct500.current_balance < 600 →
      acct500.use_points 600 none = (false, acct500, none)) ∧
    (600 ≤ acct500.current_balance →
      (acct500.use_points 600 none).1 = true ∧
      (acct500.use_points 600 none).2.1.current_balance = acct500.current_balance - 600 ∧
      (acct500.use_points 600 none).2.1.total_points_used = acct500.total_points_used + 600 ∧
      (acct500.use_points 600 none).2.1.total_points_earned = acct500.total_points_earned ∧
      ∃ tx, (acct500.use_points 600 none).2.2 = some tx ∧
        tx.transaction_type = "used" ∧ tx.points = 600 ∧ tx.account = acct500.user) ∧
    0 ≤ (acct500.use_points 600 none).2.1.current_balance :=
  use_points_spec acct500 600 none (by decide) (by decide)

/-- The `data` object of a Paystack webhook payload, with the keys the
processor reads via `data.get(...)`; a missing key is `none`. -/
structure WebhookData where
  id : Option String := none
  reference : Option String := none
  amount : Option Int := none
  currency : Option String := none
  gateway_response : Option String := none
  channel : Option String := none
  fees : Option Int := none
  deriving DecidableEq

/-- A raw webhook payload: `event_data.get('event')` and
`event_data.get('data', {})`. -/
structure WebhookEvent where
  event : Option String := none
  data : Option WebhookData := none
  deriving DecidableEq

/-- The empty dict default for `event_data.get('data', {})`. -/
def WebhookData.empty : WebhookData := {}

/-- Result of `PaystackAPI.verify_transaction` (the gateway's
transaction data); a gateway failure is modelled as `Except.error`. -/
structure VerifData where
  status : String
  gateway_response : String := ""
  deriving DecidableEq

/-- Webhook event store row, from `orders/models.py` class
`PaystackEvent` (deduplicated by the unique `event_id`). -/
structure PaystackEvent where
  event_id : String
  event_type : Option String := none
  event_data : WebhookEvent := {}
  processed : Bool := false
  processing_attempts : Int := 0
  last_processing_error : String := ""
  order_ref : Option String := none
  processed_at : Option Nat := none
  deriving DecidableEq

/-- Payment transaction row, from `orders/models.py` class
`PaymentTransaction` (unique `reference`; `order_ref` is the linked
order's payment reference). -/
structure PaymentTransaction where
  order_ref : String
  reference : String
  paystack_reference : String := ""
  amount : Rat := 0
  currency : String := "NGN"
  status : String := "pending"
  gateway_response : String := ""
  paid_at : Option Nat := none
  channel : String := ""
  fees : Option Rat := none
  deriving DecidableEq

/-- Product row (name, price and active flag are all the order code
reads). -/
structure Product where
  id : String
  name : String := ""
  price : Rat
  is_active : Bool := true
  deriving DecidableEq

/-- Order item row, from `orders/models.py` class `OrderItem`. -/
structure OrderItem where
  order_ref : String
  product_id : String
  product_name : String := ""
  product_price : Rat
  quantity : Int
  color : String := ""
  size : String := ""
  line_total : Rat
  deriving DecidableEq

/-- The relational store plus the two Celery e-mail queues
(`send_payment_confirmation_email` / `send_payment_failed_email`
enqueues, recorded by the order's payment reference). -/
structure DB where
  orders : List Order := []
  order_items : List OrderItem := []
  products : List Product := []
  accounts : List LoyaltyAccount := []
  ledger : List LoyaltyTransaction := []
  events : List PaystackEvent := []
  payment_transactions : List PaymentTransaction := []
  confirmation_emails : List String := []
  failure_emails : List String := []
  deriving DecidableEq

/-- `Order.objects.get(payment_reference=ref)`, as an `Option`. -/
def DB.findOrder (db : DB) (ref : String) : Option Order :=
  db.orders.find? (fun o => o.payment_reference = ref)

/-- `order.save()`: replaces the stored row with the in-memory one
(rows are keyed by the unique `payment_reference`). -/
def DB.saveOrder (db : DB) (o : Order) : DB :=
  { db with orders :=
      db.orders.map (fun x => if x.payment_reference = o.payment_reference then o else x) }

/-- First save of a new order row (`Order.objects.create`). -/
def DB.insertOrder (db : DB) (o : Order) : DB :=
  { db with orders := db.orders ++ [o] }

/-- `user.loyalty_account` (the reverse one-to-one), as an `Option`:
`none` models the `LoyaltyAccount.DoesNotExist` exception. -/
def DB.findAccount (db : DB) (uid : String) : Option LoyaltyAccount :=
  db.accounts.find? (fun a => a.user = uid)

/-- `loyalty_account.save()`. -/
def DB.saveAccount (db : DB) (a : LoyaltyAccount) : DB :=
  { db with accounts := db.accounts.map (fun x => if x.user = a.user then a else x) }

/-- `LoyaltyAccount.objects.get_or_create(user=user)`. -/
def DB.get_or_create_account (db : DB) (uid : String) : DB × LoyaltyAccount :=
  match db.findAccount uid with
  | some a => (db, a)
  | none =>
    let a : LoyaltyAccount := { user := uid }
    ({ db with accounts := db.accounts ++ [a] }, a)

/-- `LoyaltyTransaction.objects.create(...)`. -/
def DB.appendLoyaltyTx (db : DB) (tx : LoyaltyTransaction) : DB :=
  { db with ledger := db.ledger ++ [tx] }

/-- Lookup of a webhook event row by its gateway event id. -/
def DB.findEvent (db : DB) (eid : String) : Option PaystackEvent :=
  db.events.find? (fun e => e.event_id = eid)

/-- A save of the webhook event row keyed by event id. -/
def DB.updateEvent (db : DB) (eid : String) (f : PaystackEvent → PaystackEvent) : DB :=
  { db with events := db.events.map (fun e => if e.event_id = eid then f e else e) }

/-- `PaystackEvent.objects.get_or_create(event_id=..., defaults=...)`:
returns the row, whether it was created, and the store. -/
def DB.get_or_create_event (db : DB) (eid : String) (etype : Option String)
    (payload : WebhookEvent) : PaystackEvent × Bool × DB :=
  match db.findEvent eid with
  | some e => (e, false, db)
  | none =>
    let e : PaystackEvent := { event_id := eid, event_type := etype, event_data := payload }
    (e, true, { db with events := db.events ++ [e] })

/-- Python `int(...)` truncation toward zero applied to an exact
decimal value. -/
def pyIntOfRat (q : Rat) : Int := if 0 ≤ q then q.floor else q.ceil

/-- From `Order.calculate_loyalty_points`: 5% of the subtotal,
truncated to an integer, and 0 for guest orders. -/
def Order.calculate_loyalty_points (o : Order) : Int :=
  match o.user with
  | some _ => pyIntOfRat (o.subtotal * (5 / 100 : Rat))
  | none => 0

/-- From `Order.award_loyalty_points`: no-op unless a user is present,
points were not yet awarded and `payment_status == 'success'`;
otherwise get-or-creates the loyalty account and, when the computed
points are positive, credits them, appends the `earned` ledger row and
sets the `loyalty_points_awarded` guard flag.  Returns the store and
the (possibly updated) in-memory order. -/
def Order.award_loyalty_points (o : Order) (db : DB) : DB × Order :=
  match o.user with
  | some uid =>
    if o.loyalty_points_awarded = false ∧ o.payment_status = "success" then
      let gc := db.get_or_create_account uid
      let points := o.calculate_loyalty_points
      if 0 < points then
        let r := gc.2.add_points points (some o)
        let db2 := (gc.1.saveAccount r.1).appendLoyaltyTx r.2
        let o1 := { o with loyalty_points_earned := points, loyalty_points_awarded := true }
        (db2.saveOrder o1, o1)
      else (gc.1, o)
    else (db, o)
  | none => (db, o)

/-- The fields `Order.handle_successful_payment` reads from its
`transaction_data` dict argument. -/
structure TransactionData where
  channel : Option String := none
  amount : Option Int := none
  deriving DecidableEq

/-- From `Order.handle_successful_payment`: returns immediately if
`payment_status` is already `success`; otherwise records the payment
(`success`/`paid`, method, paid amount in major units, payment date),
awards loyalty points via the guard-checked helper, and enqueues one
confirmation e-mail. -/
def Order.handle_successful_payment (o : Order) (db : DB) (td : TransactionData)
    (now : Nat) : DB :=
  if o.payment_status = "success" then db
  else
    let o1 := { o with payment_status := "success", status := "paid",
                       payment_method := td.channel.getD "unknown",
                       paid_amount := some (((td.amount.getD 0 : Int) : Rat) / 100),
                       payment_date := some now }
    let db1 := db.saveOrder o1
    let r := o1.award_loyalty_points db1
    { r.1 with confirmation_emails := r.1.confirmation_emails ++ [o.payment_reference] }

/-- The reversal dedup guard used by `Order.handle_failed_payment`:
`loyalty_account.transactions.filter(order=self, transaction_type='reversal')`. -/
def reversalGuard (uid ref : String) (tx : LoyaltyTransaction) : Bool :=
  tx.account == uid && tx.order_ref == some ref && tx.transaction_type == "reversal"

/-- From `Order.handle_failed_payment`: returns immediately if
`payment_status` is already `failed`; otherwise marks the order
failed, reverses the used loyalty points when the order has a user,
used points, an existing loyalty account and no prior `reversal`
ledger row for this order, and enqueues one failure e-mail. -/
def Order.handle_failed_payment (o : Order) (db : DB) : DB :=
  if o.payment_status = "failed" then db
  else
    let o1 := { o with status := "failed", payment_status := "failed" }
    let db1 := db.saveOrder o1
    let db2 :=
      match o1.user with
      | some uid =>
        if 0 < o1.loyalty_points_used then
          match db1.findAccount uid with
          | some acct =>
            if db1.ledger.any (reversalGuard acct.user o1.payment_reference) then db1
            else
              let r := acct.reverse_used_points o1.loyalty_points_used (some o1)
              (db1.saveAccount r.1).appendLoyaltyTx r.2
          | none => db1
        else db1
      | none => db1
    { db2 with failure_emails := db2.failure_emails ++ [o1.payment_reference] }

/-- Python truthiness of `if not reference:` on
`data.get('reference')`: a missing or empty reference is rejected. -/
def refOf (r : Option String) : Option String :=
  match r with
  | none => none
  | some s => if s = "" then none else some s

/-- From `PaystackEvent.increment_processing_attempts`: the method
mutates the in-memory instance and then calls
`save(update_fields=['processing_attempts', 'last_processing_error',
'updated_at'])`.  `updated_at` is not a field of `PaystackEvent` (the
model has only `created_at` and `processed_at`), and Django's `save`
raises `ValueError` for an unknown name in `update_fields` before
writing anything, so the call always raises and the store is never
changed; the discarded in-memory mutation is not observable.  The
method is therefore modelled as the raised error. -/
def PaystackEvent.increment_processing_attempts (_e : PaystackEvent) (_err : String)
    (_db : DB) : Except String DB :=
  Except.error
    "ValueError: the following fields do not exist in this model: updated_at"

/-- From `PaystackEvent.mark_as_processed`: sets the in-memory
processed flags and calls `save(update_fields=['processed',
'processed_at', 'last_processing_error', 'updated_at'])`; as with the
attempt counter, `updated_at` is not a `PaystackEvent` field, so the
save always raises `ValueError` before writing — no event row is ever
marked processed by this code. -/
def PaystackEvent.mark_as_processed (_e : PaystackEvent) (_now : Nat) (_db : DB) :
    Except String DB :=
  Except.error
    "ValueError: the following fields do not exist in this model: updated_at"

/-- The `PaymentTransaction.objects.get_or_create` upsert of the
success path (`_process_successful_payment`): an existing row by
reference is marked `success` with a fresh `paid_at` and returned.  On
a miss the create defaults also pass `authorization_code`,
`card_type`, `bank` and `last_4`, which are not fields of the
`PaymentTransaction` model, so Django's model constructor raises
`TypeError` and no new row is ever created on this path; the raise is
modelled as the error outcome (caught by the handler's own
`except Exception`). -/
def DB.upsertPaymentTransactionSuccess (db : DB) (o : Order) (data : WebhookData)
    (reference : String) (now : Nat) : Except String (DB × PaymentTransaction) :=
  match db.payment_transactions.find? (fun t => t.reference = reference) with
  | some t =>
    let t1 := { t with status := "success", paid_at := some now,
                       gateway_response := data.gateway_response.getD "" }
    Except.ok
      ({ db with payment_transactions :=
          db.payment_transactions.map (fun x => if x.reference = reference then t1 else x) },
       t1)
  | none =>
    Except.error
      "TypeError: unexpected keyword arguments: authorization_code, card_type, bank, last_4"

/-- The `PaymentTransaction.objects.get_or_create` upsert of the
failure path (`_process_failed_payment`): an existing row is marked
`failed`; otherwise a new `failed` row is created. -/
def DB.upsertPaymentTransactionFailed (db : DB) (o : Order) (data : WebhookData)
    (reference : String) : DB :=
  match db.payment_transactions.find? (fun t => t.reference = reference) with
  | some t =>
    let t1 := { t with status := "failed",
                       gateway_response := data.gateway_response.getD "" }
    { db with payment_transactions :=
        db.payment_transactions.map (fun x => if x.reference = reference then t1 else x) }
  | none =>
    let t : PaymentTransaction :=
      { order_ref := o.payment_reference, reference := reference,
        paystack_reference := data.id.getD "",
        amount := ((data.amount.getD 0 : Int) : Rat) / 100,
        currency := data.currency.getD "NGN",
        status := "failed",
        gateway_response := data.gateway_response.getD "",
        channel := data.channel.getD "" }
    { db with payment_transactions := db.payment_transactions ++ [t] }

/-- From `PaystackWebhookProcessor._process_successful_payment`.
A missing reference raises `ValueError`, caught by the handler's own
`except Exception` as a retryable `False`; an unknown order is a
terminal `True`; a gateway error on verify is a retryable `False`; a
verification status other than `success` raises, again `False`; the
`TypeError` of the upsert's create branch is likewise caught as
`False`; when the upsert finds an existing row the order is marked
paid and loyalty points are awarded. -/
def process_successful_payment_step (verify : String → Except String VerifData)
    (now : Nat) (db : DB) (data : WebhookData) (eid : String) : Bool × DB :=
  match refOf data.reference with
  | none => (false, db)
  | some reference =>
    match db.findOrder reference with
    | none => (true, db)
    | some order =>
      let db1 := db.updateEvent eid (fun e => { e with order_ref := some reference })
      match verify reference with
      | Except.error _ => (false, db1)
      | Except.ok vdata =>
        if vdata.status ≠ "success" then (false, db1)
        else
          match db1.upsertPaymentTransactionSuccess order data reference now with
          | Except.error _ => (false, db1)
          | Except.ok uts =>
            let o1 := { order with
                          payment_status := "success", status := "paid",
                          payment_method := data.channel.getD "",
                          paid_amount := some uts.2.amount,
                          payment_date := uts.2.paid_at }
            let r := o1.award_loyalty_points (uts.1.saveOrder o1)
            (true, r.1)

/-- From `PaystackWebhookProcessor._process_failed_payment`: upserts a
failed payment transaction and marks the order failed directly (the
method does not call `Order.handle_failed_payment`). -/
def process_failed_payment_step (db : DB) (data : WebhookData) (eid : String) :
    Bool × DB :=
  match refOf data.reference with
  | none => (false, db)
  | some reference =>
    match db.findOrder reference with
    | none => (true, db)
    | some order =>
      let db1 := db.updateEvent eid (fun e => { e with order_ref := some reference })
      let db2 := db1.upsertPaymentTransactionFailed order data reference
      let o1 := { order with payment_status := "failed", status := "failed" }
      (true, db2.saveOrder o1)

/-- The event-store key a payload is stored under:
`data.get('id', '')` of `event_data.get('data', {})`. -/
def eventIdOf (ev : WebhookEvent) : String :=
  ((ev.data.getD WebhookData.empty).id).getD ""

/-- From `PaystackWebhookProcessor.process_webhook_event`: get-or-create
the event row by gateway event id and return success immediately when
the row already existed and is processed.  Otherwise the code calls
`increment_processing_attempts`, which always raises `ValueError`
(`updated_at` in `update_fields` is not a `PaystackEvent` field); the
surrounding `except Exception` then calls
`increment_processing_attempts(str(e))`, which raises the same
`ValueError` again, so that exception propagates out of the function
and its `return False` is unreachable.  The dispatch by event type
(`charge.success` to the success path, `charge.failed` and
`charge.abandoned` to the failure path, anything else trivially
successful) and the `mark_as_processed` call below the increment are
modelled as written but are dead code for every unprocessed event.
The result pairs the outcome — `Except.error` for an exception that
propagates to the caller — with the store. -/
def process_webhook_event (verify : String → Except String VerifData) (now : Nat)
    (db : DB) (event_data : WebhookEvent) : Except String Bool × DB :=
  let event_type := event_data.event
  let data := event_data.data.getD WebhookData.empty
  let eid := data.id.getD ""
  let gc := db.get_or_create_event eid event_type event_data
  if gc.2.1 = false ∧ gc.1.processed = true then (Except.ok true, gc.2.2)
  else
    match gc.1.increment_processing_attempts "" gc.2.2 with
    | Except.error msg =>
      match gc.1.increment_processing_attempts msg gc.2.2 with
      | Except.error msg2 => (Except.error msg2, gc.2.2)
      | Except.ok dbe => (Except.ok false, dbe)
    | Except.ok db2 =>
      let r :=
        if event_type = some "charge.success" then
          process_successful_payment_step verify now db2 data eid
        else if event_type = some "charge.failed" ∨ event_type = some "charge.abandoned" then
          process_failed_payment_step db2 data eid
        else (true, db2)
      if r.1 = true then
        match gc.1.mark_as_processed now r.2 with
        | Except.error msg =>
          match gc.1.increment_processing_attempts msg r.2 with
          | Except.error msg2 => (Except.error msg2, r.2)
          | Except.ok dbe => (Except.ok false, dbe)
        | Except.ok db3 => (Except.ok true, db3)
      else (Except.ok r.1, r.2)

/-- From `OrderCreateSerializer.calculate_shipping_fee`: free shipping
at or above a subtotal of 100, otherwise a flat fee of 10. -/
def calculate_shipping_fee (subtotal : Rat) : Rat :=
  if subtotal ≥ 100 then 0 else 10

/-- From `OrderCreateSerializer.calculate_tax`: 8% of the subtotal. -/
def calculate_tax (subtotal : Rat) : Rat :=
  subtotal * (8 / 100)

/-- From `orders/views.py` `order_summary`: the summary endpoint's
shipping fee, flat 10000 below a 100000 threshold, else 0. -/
def summary_shipping_fee (subtotal : Rat) : Rat :=
  if subtotal < 100000 then 10000 else 0

/-- One requested line item of an order-creation request. -/
structure ItemReq where
  product_id : String
  quantity : Int
  color : String := ""
  size : String := ""
  deriving DecidableEq

/-- An order-creation request (the serializer fields the claims
touch; the address snapshot text is elided). -/
structure OrderRequest where
  customer_email : String := ""
  items : List ItemReq := []
  use_loyalty_points : Int := 0
  deriving DecidableEq

/-- From `OrderCreateSerializer.validate_items`. -/
def validate_items (items : List ItemReq) : Except String (List ItemReq) :=
  if items = [] then Except.error "At least one item is required" else Except.ok items

/-- From `OrderCreateSerializer.validate_use_loyalty_points`: positive
values require an authenticated user with a loyalty account whose
balance covers the request; a shortfall produces the validation error
citing the available balance. -/
def validate_use_loyalty_points (authenticated : Bool) (account : Option LoyaltyAccount)
    (value : Int) : Except String Int :=
  if 0 < value ∧ authenticated = false then
    Except.error "Only logged in users can use loyalty points"
  else if 0 < value ∧ authenticated = true then
    match account with
    | some acct =>
      if acct.current_balance < value then
        Except.error ("Insufficient loyalty points. Available: " ++
          toString acct.current_balance)
      else Except.ok value
    | none => Except.error "No loyalty account found"
  else Except.ok value

/-- `Product.objects.get(id=..., is_active=True)`, as an `Option`. -/
def DB.findActiveProduct (db : DB) (pid : String) : Option Product :=
  db.products.find? (fun p => p.id == pid && p.is_active)

/-- From `OrderCreateSerializer.validate`: every item must reference an
active product, and the subtotal is the sum of current product price
times quantity (never client prices). -/
def validate_attrs (db : DB) (items : List ItemReq) : Except String Rat :=
  items.foldl (fun acc item =>
    match acc with
    | Except.error e => Except.error e
    | Except.ok total =>
      match db.findActiveProduct item.product_id with
      | some p => Except.ok (total + p.price * (item.quantity : Rat))
      | none => Except.error ("Product " ++ item.product_id ++ " not found"))
    (Except.ok 0)

/-- From `OrderCreateSerializer.create` (run inside one transaction
after validation passed): computes the totals, inserts the order row
and its item rows, and debits the loyalty ledger when points are used
(the source discards `use_points`' return value).  `ref` and `onum`
stand for the generated unique payment reference and order number. -/
def serializer_create (db : DB) (user : Option String) (req : OrderRequest)
    (subtotal : Rat) (ref onum : String) : DB × Order :=
  let shipping_fee := calculate_shipping_fee subtotal
  let tax_amount := calculate_tax subtotal
  let loyalty_discount : Rat := (req.use_loyalty_points : Rat)
  let total_amount := subtotal + shipping_fee + tax_amount - loyalty_discount
  let order : Order :=
    { payment_reference := ref, order_number := onum, user := user,
      customer_email := req.customer_email,
      subtotal := subtotal, shipping_fee := shipping_fee,
      tax_amount := tax_amount, total_amount := total_amount,
      loyalty_points_used := req.use_loyalty_points,
      currency := "NGN", status := "pending", payment_status := "pending" }
  let db1 := db.insertOrder order
  let newItems := req.items.filterMap (fun item =>
    (db.products.find? (fun p => p.id == item.product_id)).map (fun p =>
      ({ order_ref := ref, product_id := p.id, product_name := p.name,
         product_price := p.price, quantity := item.quantity,
         color := item.color, size := item.size,
         line_total := p.price * (item.quantity : Rat) } : OrderItem)))
  let db2 := { db1 with order_items := db1.order_items ++ newItems }
  let db3 :=
    match user with
    | some uid =>
      if 0 < req.use_loyalty_points then
        let gc := db2.get_or_create_account uid
        let r := gc.2.use_points req.use_loyalty_points (some order)
        match r.2.2 with
        | some tx => (gc.1.saveAccount r.2.1).appendLoyaltyTx tx
        | none => gc.1.saveAccount r.2.1
      else db2
    | none => db2
  (db3, order)

/-- The collected field-level validation errors of an order-creation
request, in field declaration order (items, then loyalty points). -/
def field_errors_of (db : DB) (authenticated : Bool) (user : Option String)
    (req : OrderRequest) : List String :=
  (match validate_items req.items with
   | Except.error e => [e]
   | Except.ok _ => []) ++
  (match validate_use_loyalty_points authenticated
      (match user with | some uid => db.findAccount uid | none => none)
      req.use_loyalty_points with
   | Except.error e => [e]
   | Except.ok _ => [])

/-- The order-creation endpoint flow: the serializer's validators run
first and a validation failure returns the errors with the store
untouched (DRF raises before `create` is entered); only a fully valid
request reaches `serializer_create`. -/
def order_create (db : DB) (authenticated : Bool) (user : Option String)
    (req : OrderRequest) (ref onum : String) : DB × Except (List String) Order :=
  match field_errors_of db authenticated user req with
  | e :: es => (db, Except.error (e :: es))
  | [] =>
    match validate_attrs db req.items with
    | Except.error e => (db, Except.error [e])
    | Except.ok subtotal =>
      let r := serializer_create db user req subtotal ref onum
      (r.1, Except.ok r.2)

theorem serializer_create_shipping_fee (db : DB) (user : Option String)
    (req : OrderRequest) (subtotal : Rat) (ref onum : String) :
    (serializer_create db user req subtotal ref onum).2.shipping_fee =
      calculate_shipping_fee subtotal := rfl

theorem serializer_create_subtotal (db : DB) (user : Option String)
    (req : OrderRequest) (subtotal : Rat) (ref onum : String) :
    (serializer_create db user req subtotal ref onum).2.subtotal = subtotal := rfl

theorem validate_use_loyalty_points_insufficient (acct : LoyaltyAccount) (v : Int)
    (h : acct.current_balance < v) (h0 : 0 < v) :
    validate_use_loyalty_points true (some acct) v =
      Except.error ("Insufficient loyalty points. Available: " ++
        toString acct.current_balance) := by
  unfold validate_use_loyalty_points
  rw [if_neg (by simp), if_pos ⟨h0, rfl⟩]
  dsimp only
  rw [if_pos h]

/-- C8: an authenticated customer whose loyalty balance is 500 who
requests 600 loyalty points at checkout gets a validation error citing
the available balance of 500, and the store is returned untouched (no
order row is created — validation fails before `create` runs). -/
theorem insufficient_points_checkout (db : DB) (uid : String) (acct : LoyaltyAccount)
    (req : OrderRequest) (ref onum : String)
    (hacct : db.findAccount uid = some acct)
    (hbal : acct.current_balance = 500)
    (hreq : req.use_loyalty_points = 600) :
    (order_create db true (some uid) req ref onum).1 = db ∧
    ∃ errs, (order_create db true (some uid) req ref onum).2 = Except.error errs ∧
      "Insufficient loyalty points. Available: 500" ∈ errs := by
  have hv : validate_use_loyalty_points true (db.findAccount uid) req.use_loyalty_points =
      Except.error "Insufficient loyalty points. Available: 500" := by
    rw [hacct, hreq,
      validate_use_loyalty_points_insufficient acct 600 (by omega) (by norm_num), hbal]
    rfl
  unfold order_create field_errors_of
  cases hvi : validate_items req.items with
  | error e0 =>
    simp only [hvi, hv]
    exact ⟨rfl, _, rfl, by simp⟩
  | ok xs =>
    simp only [hvi, hv]
    exact ⟨rfl, _, rfl, by simp⟩

/-- Concrete store for the C8 witness: one customer with a 500-point
loyalty balance. -/
def dbC8 : DB :=
  { accounts := [{ user := "cust", total_points_earned := 500, current_balance := 500 }] }

/-- Concrete request for the C8 witness: 600 points requested. -/
def reqC8 : OrderRequest :=
  { items := [{ product_id := "p1", quantity := 1 }], use_loyalty_points := 600 }

/-- Witness for C8 at a concrete store and request. -/
theorem insufficient_points_checkout_witness :
    (order_create dbC8 true (some "cust") reqC8 "r1" "n1").1 = dbC8 ∧
    ∃ errs, (order_create dbC8 true (some "cust") reqC8 "r1" "n1").2 = Except.error errs ∧
      "Insufficient loyalty points. Available: 500" ∈ errs :=
  insufficient_points_checkout dbC8 "cust"
    { user := "cust", total_points_earned := 500, current_balance := 500 }
    reqC8 "r1" "n1" rfl rfl rfl

/-- C9 counterexample: at a subtotal of exactly 100000 neither
shipping-fee computation returns the flat fee — order creation
(`calculate_shipping_fee`, threshold 100, flat fee 10) returns 0, and
the summary endpoint (`summary_shipping_fee`, threshold 100000, flat
fee 10000) also returns 0; likewise 1000 (100000 minor units) gets
free shipping at creation.  So an order with subtotal 100000 does not
carry the flat fee, contrary to the claim. -/
theorem shipping_fee_at_100000_counterexample :
    calculate_shipping_fee 100000 = 0 ∧ summary_shipping_fee 100000 = 0 ∧
    calculate_shipping_fee 1000 = 0 ∧ ¬ calculate_shipping_fee 100000 = 10 := by
  refine ⟨?_, ?_, ?_, ?_⟩ <;> norm_num [calculate_shipping_fee, summary_shipping_fee]

/-- C9 (amended): order creation charges the flat fee of 10 only below
the free-shipping threshold of 100 and 0 at or above it; the summary
endpoint charges its flat fee of 10000 below its threshold of 100000
and 0 at or above it; and every order created at checkout carries
`shipping_fee = calculate_shipping_fee subtotal`.  A subtotal of
100000 is at or above both thresholds, so its fee is 0, not the flat
fee. -/
theorem shipping_fee_spec (subtotal : Rat) (db : DB) (authenticated : Bool)
    (user : Option String) (req : OrderRequest) (ref onum : String) (o : Order) :
    (subtotal < 100 → calculate_shipping_fee subtotal = 10) ∧
    (100 ≤ subtotal → calculate_shipping_fee subtotal = 0) ∧
    (subtotal < 100000 → summary_shipping_fee subtotal = 10000) ∧
    (100000 ≤ subtotal → summary_shipping_fee subtotal = 0) ∧
    ((order_create db authenticated user req ref onum).2 = Except.ok o →
      o.shipping_fee = calculate_shipping_fee o.subtotal) := by
  refine ⟨fun h => if_neg (not_le.mpr h), fun h => if_pos h, fun h => if_pos h,
    fun h => if_neg (not_lt.mpr h), ?_⟩
  intro h
  unfold order_create at h
  cases hfe : field_errors_of db authenticated user req with
  | cons e es => rw [hfe] at h; simp at h
  | nil =>
    rw [hfe] at h
    cases hva : validate_attrs db req.items with
    | error e => rw [hva] at h; simp at h
    | ok subtotal2 =>
      rw [hva] at h
      dsimp only at h
      have ho : (serializer_create db user req subtotal2 ref onum).2 = o :=
        Except.ok.inj h
      rw [← ho, serializer_create_shipping_fee, serializer_create_subtotal]

/-- Ledger predicate: an `earned` award row linked to the given
order. -/
def earnedTxFor (ref : String) (tx : LoyaltyTransaction) : Bool :=
  tx.order_ref == some ref && tx.transaction_type == "earned"

theorem find?_save_list (l : List Order) (ref : String) (o o2 : Order)
    (h : l.find? (fun x => x.payment_reference = ref) = some o)
    (h2 : o2.payment_reference = ref) :
    (l.map (fun x => if x.payment_reference = ref then o2 else x)).find?
      (fun x => x.payment_reference = ref) = some o2 := by
  induction l with
  | nil => simp at h
  | cons a t ih =>
    rw [List.map_cons]
    by_cases ha : a.payment_reference = ref
    · rw [if_pos ha, List.find?_cons_of_pos _ (by simp [h2])]
    · rw [if_neg ha, List.find?_cons_of_neg _ (by simp [ha])]
      exact ih (by rwa [List.find?_cons_of_neg _ (by simp [ha])] at h)

/-- Saving an order found in the store makes the saved version the one
found afterwards (rows are keyed by the unique payment reference). -/
theorem findOrder_saveOrder (db : DB) (ref : String) (o o2 : Order)
    (h : db.findOrder ref = some o) (h2 : o2.payment_reference = ref) :
    (db.saveOrder o2).findOrder ref = some o2 := by
  unfold DB.findOrder DB.saveOrder at *
  dsimp only
  simp only [h2]
  exact find?_save_list db.orders ref o o2 h h2

/-- Witness for C9's amended theorem at concrete subtotals on both
sides of both thresholds. -/
theorem shipping_fee_spec_witness :
    calculate_shipping_fee 50 = 10 ∧ calculate_shipping_fee 150 = 0 ∧
    summary_shipping_fee 50000 = 10000 ∧ summary_shipping_fee 200000 = 0 :=
  ⟨(shipping_fee_spec 50 {} true none {} "r" "n" { payment_reference := "r" }).1
      (by norm_num),
   (shipping_fee_spec 150 {} true none {} "r" "n" { payment_reference := "r" }).2.1
      (by norm_num),
   (shipping_fee_spec 50000 {} true none {} "r" "n" { payment_reference := "r" }).2.2.1
      (by norm_num),
   (shipping_fee_spec 200000 {} true none {} "r" "n" { payment_reference := "r" }).2.2.2.1
      (by norm_num)⟩

/-- Effects of one productive run of `award_loyalty_points` on an
eligible order inside the store: the stored order keeps `success`,
exactly one `earned` ledger row for it is appended, and the e-mail
queues are untouched. -/
theorem award_loyalty_points_effects (db : DB) (o : Order) (uid : String)
    (hmem : db.findOrder o.payment_reference = some o)
    (huser : o.user = some uid)
    (hflag : o.loyalty_points_awarded = false)
    (hsucc : o.payment_status = "success")
    (hpts : 0 < o.calculate_loyalty_points) :
    ∃ (o2 : Order) (tx : LoyaltyTransaction),
      (o.award_loyalty_points db).1.findOrder o.payment_reference = some o2 ∧
      o2.payment_status = "success" ∧
      earnedTxFor o.payment_reference tx = true ∧
      (o.award_loyalty_points db).1.ledger = db.ledger ++ [tx] ∧
      (o.award_loyalty_points db).1.confirmation_emails = db.confirmation_emails ∧
      (o.award_loyalty_points db).1.failure_emails = db.failure_emails := by
  unfold Order.award_loyalty_points
  rw [huser]
  dsimp only
  rw [if_pos ⟨hflag, hsucc⟩]
  unfold DB.get_or_create_account
  rcases hfa : db.findAccount uid with _ | acct
  · dsimp only
    rw [if_pos hpts]
    refine ⟨{ o with
                user := some uid,
                loyalty_points_earned := o.calculate_loyalty_points,
                loyalty_points_awarded := true }, _, ?_, hsucc, ?_, rfl, rfl, rfl⟩
    · exact findOrder_saveOrder _ _ o _ (by exact hmem) rfl
    · simp [earnedTxFor, LoyaltyAccount.add_points]
  · dsimp only
    rw [if_pos hpts]
    refine ⟨{ o with
                user := some uid,
                loyalty_points_earned := o.calculate_loyalty_points,
                loyalty_points_awarded := true }, _, ?_, hsucc, ?_, rfl, rfl, rfl⟩
    · exact findOrder_saveOrder _ _ o _ (by exact hmem) rfl
    · simp [earnedTxFor, LoyaltyAccount.add_points]

/-- The field update `handle_successful_payment` applies to the order
before saving (success/paid, method, amount in major units, date). -/
def paidOrder (o : Order) (td : TransactionData) (now : Nat) : Order :=
  { o with payment_status := "success", status := "paid",
           payment_method := td.channel.getD "unknown",
           paid_amount := some (((td.amount.getD 0 : Int) : Rat) / 100),
           payment_date := some now }

/-- C3: `handle_successful_payment` is idempotent.  A call on an order
whose `payment_status` is already `success` returns the store
unchanged (the early-return no-op), and on an eligible order (user
present, award flag clear, positive computed points, no prior award
row or confirmation e-mail for it) two successive calls produce
exactly one `earned` loyalty-award ledger row and exactly one
confirmation-notification enqueue: the first call performs them once
and the second call is a no-op on the stored order. -/
theorem handle_successful_payment_idempotent (db : DB) (o : Order) (uid : String)
    (td td2 : TransactionData) (now now2 : Nat)
    (hmem : db.findOrder o.payment_reference = some o)
    (hstat : o.payment_status ≠ "success")
    (huser : o.user = some uid)
    (hflag : o.loyalty_points_awarded = false)
    (hpts : 0 < o.calculate_loyalty_points)
    (htx : db.ledger.countP (earnedTxFor o.payment_reference) = 0)
    (hem : db.confirmation_emails.count o.payment_reference = 0) :
    (∀ (db0 : DB) (o0 : Order) (td0 : TransactionData) (n0 : Nat),
        o0.payment_status = "success" → o0.handle_successful_payment db0 td0 n0 = db0) ∧
    ∃ o1, (o.handle_successful_payment db td now).findOrder o.payment_reference = some o1 ∧
      o1.handle_successful_payment (o.handle_successful_payment db td now) td2 now2 =
        o.handle_successful_payment db td now ∧
      (o.handle_successful_payment db td now).ledger.countP
        (earnedTxFor o.payment_reference) = 1 ∧
      (o.handle_successful_payment db td now).confirmation_emails.count
        o.payment_reference = 1 := by
  have hnoop : ∀ (db0 : DB) (o0 : Order) (td0 : TransactionData) (n0 : Nat),
      o0.payment_status = "success" → o0.handle_successful_payment db0 td0 n0 = db0 := by
    intro db0 o0 td0 n0 h0
    unfold Order.handle_successful_payment
    rw [if_pos h0]
  obtain ⟨o2, tx, hfind, ho2succ, htxe, hledger, hemails, _⟩ :=
    award_loyalty_points_effects (db.saveOrder (paidOrder o td now)) (paidOrder o td now)
      uid (findOrder_saveOrder db o.payment_reference o (paidOrder o td now) hmem rfl)
      huser hflag rfl hpts
  have hl : (o.handle_successful_payment db td now).ledger = db.ledger ++ [tx] := by
    unfold Order.handle_successful_payment
    rw [if_neg hstat]
    exact hledger
  have he : (o.handle_successful_payment db td now).confirmation_emails =
      db.confirmation_emails ++ [o.payment_reference] := by
    unfold Order.handle_successful_payment
    rw [if_neg hstat]
    exact congrArg (fun l => l ++ [o.payment_reference]) hemails
  refine ⟨hnoop, o2, ?_, ?_, ?_, ?_⟩
  · unfold Order.handle_successful_payment
    rw [if_neg hstat]
    exact hfind
  · exact hnoop _ o2 td2 now2 ho2succ
  · have htxe2 : earnedTxFor o.payment_reference tx = true := htxe
    rw [hl, List.countP_append, htx, List.countP_cons, htxe2]
    simp
  · rw [he, List.count_append, hem]
    simp

/-- Concrete order for the C3 witness: pending, owned by a user, with
a 200 subtotal (10 computed loyalty points). -/
def oC3 : Order :=
  { payment_reference := "refc3", order_number := "N3", user := some "u3", subtotal := 200 }

/-- Concrete store for the C3 witness. -/
def dbC3 : DB := { orders := [oC3] }

/-- Witness for C3 at a concrete store and order. -/
theorem handle_successful_payment_idempotent_witness :
    (∀ (db0 : DB) (o0 : Order) (td0 : TransactionData) (n0 : Nat),
        o0.payment_status = "success" → o0.handle_successful_payment db0 td0 n0 = db0) ∧
    ∃ o1, (oC3.handle_successful_payment dbC3 {} 5).findOrder oC3.payment_reference =
        some o1 ∧
      o1.handle_successful_payment (oC3.handle_successful_payment dbC3 {} 5) {} 6 =
        oC3.handle_successful_payment dbC3 {} 5 ∧
      (oC3.handle_successful_payment dbC3 {} 5).ledger.countP
        (earnedTxFor oC3.payment_reference) = 1 ∧
      (oC3.handle_successful_payment dbC3 {} 5).confirmation_emails.count
        oC3.payment_reference = 1 :=
  handle_successful_payment_idempotent dbC3 oC3 "u3" {} {} 5 6 rfl (by decide) rfl rfl
    (by show (0:Int) < pyIntOfRat (200 * (5/100 : Rat))
        norm_num [pyIntOfRat]
        decide) rfl rfl

/-- Ledger predicate: a `reversal` row linked to the given order. -/
def reversalTxFor (ref : String) (tx : LoyaltyTransaction) : Bool :=
  tx.order_ref == some ref && tx.transaction_type == "reversal"

theorem findAccount_saveOrder (db : DB) (o : Order) (uid : String) :
    (db.saveOrder o).findAccount uid = db.findAccount uid := rfl

theorem ledger_saveOrder (db : DB) (o : Order) :
    (db.saveOrder o).ledger = db.ledger := rfl

/-- Effects of one productive run of `handle_failed_payment` on an
order that consumed loyalty points (user and account present, no prior
reversal row): the stored order ends failed, exactly one `reversal`
ledger row is appended, and one failure e-mail is enqueued. -/
theorem handle_failed_payment_effects (db : DB) (o : Order) (uid : String)
    (acct : LoyaltyAccount)
    (hmem : db.findOrder o.payment_reference = some o)
    (hstat : o.payment_status ≠ "failed")
    (huser : o.user = some uid)
    (hused : 0 < o.loyalty_points_used)
    (hacct : db.findAccount uid = some acct)
    (hnorev : db.ledger.countP (reversalTxFor o.payment_reference) = 0) :
    ∃ o1 tx,
      (o.handle_failed_payment db).findOrder o.payment_reference = some o1 ∧
      o1.payment_status = "failed" ∧ o1.status = "failed" ∧
      reversalTxFor o.payment_reference tx = true ∧
      (o.handle_failed_payment db).ledger = db.ledger ++ [tx] ∧
      (o.handle_failed_payment db).failure_emails =
        db.failure_emails ++ [o.payment_reference] := by
  have hnone : ∀ tx ∈ db.ledger, ¬ reversalTxFor o.payment_reference tx = true := by
    rw [← List.countP_eq_zero]
    exact hnorev
  have hany : db.ledger.any (reversalGuard acct.user o.payment_reference) = false := by
    rw [List.any_eq_false]
    intro tx htxm
    have h2 := hnone tx htxm
    simp only [reversalGuard, reversalTxFor, Bool.and_eq_true, beq_iff_eq] at h2 ⊢
    tauto
  unfold Order.handle_failed_payment
  rw [if_neg hstat]
  rw [huser]
  dsimp only
  rw [if_pos hused]
  rw [findAccount_saveOrder, hacct]
  dsimp only
  rw [ledger_saveOrder]
  rw [if_neg (by simp [hany])]
  refine ⟨{ o with user := some uid, status := "failed", payment_status := "failed" },
    _, ?_, rfl, rfl, ?_, rfl, rfl⟩
  · exact findOrder_saveOrder _ _ o _ (by exact hmem) rfl
  · simp [reversalTxFor, LoyaltyAccount.reverse_used_points]

/-- C4: on an order that consumed loyalty points (user and loyalty
account present, no prior reversal row), two successive calls of
`handle_failed_payment` produce exactly one `reversal` ledger row: the
first call appends it, the second call is the early-return no-op on
the now-failed stored order; and the reversal is guarded by the
existing-reversal check — a call that finds a prior `reversal` row for
the order appends nothing to the ledger. -/
theorem handle_failed_payment_single_reversal (db : DB) (o : Order) (uid : String)
    (acct : LoyaltyAccount)
    (hmem : db.findOrder o.payment_reference = some o)
    (hstat : o.payment_status ≠ "failed")
    (huser : o.user = some uid)
    (hused : 0 < o.loyalty_points_used)
    (hacct : db.findAccount uid = some acct)
    (hnorev : db.ledger.countP (reversalTxFor o.payment_reference) = 0) :
    ∃ o1, (o.handle_failed_payment db).findOrder o.payment_reference = some o1 ∧
      o1.handle_failed_payment (o.handle_failed_payment db) = o.handle_failed_payment db ∧
      (o.handle_failed_payment db).ledger.countP (reversalTxFor o.payment_reference) = 1 ∧
    (∀ (db3 : DB) (o3 : Order) (uid3 : String) (acct3 : LoyaltyAccount),
      o3.payment_status ≠ "failed" → o3.user = some uid3 →
      0 < o3.loyalty_points_used → db3.findAccount uid3 = some acct3 →
      db3.ledger.any (reversalGuard acct3.user o3.payment_reference) = true →
      (o3.handle_failed_payment db3).ledger = db3.ledger) := by
  obtain ⟨o1, tx, hfind, hfail, _hst, htxr, hledger, _hmail⟩ :=
    handle_failed_payment_effects db o uid acct hmem hstat huser hused hacct hnorev
  refine ⟨o1, hfind, ?_, ?_, ?_⟩
  · unfold Order.handle_failed_payment
    rw [if_pos hfail]
  · rw [hledger, List.countP_append, hnorev, List.countP_cons, htxr]
    simp
  · intro db3 o3 uid3 acct3 h1 h2 h3 h4 h5
    unfold Order.handle_failed_payment
    rw [if_neg h1]
    rw [h2]
    dsimp only
    rw [if_pos h3, findAccount_saveOrder, h4]
    dsimp only
    rw [ledger_saveOrder, if_pos h5]
    rfl

/-- Concrete order for the C4 witness: pending, 120 points used. -/
def oC4 : Order :=
  { payment_reference := "refc4", order_number := "N4", user := some "u4",
    loyalty_points_used := 120 }

/-- Concrete store for the C4 witness. -/
def dbC4 : DB :=
  { orders := [oC4],
    accounts := [{ user := "u4", total_points_earned := 120, total_points_used := 120,
                   current_balance := 0 }] }

/-- Witness for C4 at a concrete store and order. -/
theorem handle_failed_payment_single_reversal_witness :
    ∃ o1, (oC4.handle_failed_payment dbC4).findOrder oC4.payment_reference = some o1 ∧
      o1.handle_failed_payment (oC4.handle_failed_payment dbC4) =
        oC4.handle_failed_payment dbC4 ∧
      (oC4.handle_failed_payment dbC4).ledger.countP
        (reversalTxFor oC4.payment_reference) = 1 ∧
    (∀ (db3 : DB) (o3 : Order) (uid3 : String) (acct3 : LoyaltyAccount),
      o3.payment_status ≠ "failed" → o3.user = some uid3 →
      0 < o3.loyalty_points_used → db3.findAccount uid3 = some acct3 →
      db3.ledger.any (reversalGuard acct3.user o3.payment_reference) = true →
      (o3.handle_failed_payment db3).ledger = db3.ledger) :=
  handle_failed_payment_single_reversal dbC4 oC4 "u4"
    { user := "u4", total_points_earned := 120, total_points_used := 120,
      current_balance := 0 }
    rfl (by decide) rfl (by decide) rfl rfl

/-- On a resolving reference whose authoritative verification returns
a non-success status, the success-path handler returns the retryable
failure flag and touches nothing but the event row. -/
theorem success_step_verification_mismatch (verify : String → Except String VerifData)
    (now : Nat) (dbx : DB) (data : WebhookData) (eid : String) (r : String) (o : Order)
    (v : VerifData)
    (href : refOf data.reference = some r)
    (hox : dbx.findOrder r = some o)
    (hv : verify r = Except.ok v)
    (hvs : v.status ≠ "success") :
    process_successful_payment_step verify now dbx data eid =
      (false, dbx.updateEvent eid (fun e => { e with order_ref := some r })) := by
  unfold process_successful_payment_step
  rw [href]
  dsimp only
  rw [hox]
  dsimp only
  rw [hv]
  dsimp only
  rw [if_pos hvs]

/-- Fresh-event behaviour of the processor: when no processed row
exists yet for the webhook's event id, the first statement after the
dedup check — `increment_processing_attempts` — raises `ValueError`
(`updated_at` is not a `PaystackEvent` field), the exception handler's
own `increment_processing_attempts(str(e))` raises the same error
again, and the exception propagates.  The only store change is the
get-or-create of the (unprocessed) event row; the dispatch is never
reached. -/
theorem process_fresh_event_raises (verify : String → Except String VerifData)
    (now : Nat) (db : DB) (ev : WebhookEvent)
    (hfresh : ∀ e ∈ db.events, e.event_id = eventIdOf ev → e.processed = false) :
    process_webhook_event verify now db ev =
      (Except.error
        "ValueError: the following fields do not exist in this model: updated_at",
       (db.get_or_create_event (eventIdOf ev) ev.event ev).2.2) := by
  simp only [eventIdOf] at hfresh ⊢
  unfold process_webhook_event
  dsimp only
  unfold DB.get_or_create_event
  rcases hfe : db.findEvent ((ev.data.getD WebhookData.empty).id.getD "") with _ | e
  · rw [if_neg (by simp)]
    rfl
  · have hproc : e.processed = false := by
      have hmem := List.mem_of_find?_eq_some hfe
      have hpred := List.find?_some hfe
      simp only [decide_eq_true_eq] at hpred
      exact hfresh e hmem hpred
    rw [if_neg (by simp [hproc])]
    rfl

theorem get_or_create_event_findOrder (db : DB) (eid : String) (et : Option String)
    (p : WebhookEvent) (ref : String) :
    (db.get_or_create_event eid et p).2.2.findOrder ref = db.findOrder ref := by
  unfold DB.get_or_create_event
  cases db.findEvent eid <;> rfl

theorem get_or_create_event_ledger (db : DB) (eid : String) (et : Option String)
    (p : WebhookEvent) :
    (db.get_or_create_event eid et p).2.2.ledger = db.ledger := by
  unfold DB.get_or_create_event
  cases db.findEvent eid <;> rfl

theorem get_or_create_event_accounts (db : DB) (eid : String) (et : Option String)
    (p : WebhookEvent) :
    (db.get_or_create_event eid et p).2.2.accounts = db.accounts := by
  unfold DB.get_or_create_event
  cases db.findEvent eid <;> rfl

theorem get_or_create_event_failure_emails (db : DB) (eid : String) (et : Option String)
    (p : WebhookEvent) :
    (db.get_or_create_event eid et p).2.2.failure_emails = db.failure_emails := by
  unfold DB.get_or_create_event
  cases db.findEvent eid <;> rfl

theorem get_or_create_event_confirmation_emails (db : DB) (eid : String)
    (et : Option String) (p : WebhookEvent) :
    (db.get_or_create_event eid et p).2.2.confirmation_emails =
      db.confirmation_emails := by
  unfold DB.get_or_create_event
  cases db.findEvent eid <;> rfl

/-- C1 (amended): for a `charge.success` webhook whose event id has no
processed row yet and whose reference resolves to an existing order,
`process_webhook_event` raises before the gateway is ever consulted —
the outcome is the propagated `ValueError`, identical under any two
verification stubs, and the order is left exactly as it was (neither
the success path nor any failure path runs).  In the success handler
itself — dead code under the broken attempt counter — a verification
status other than `success` raises a `ValueError` that the handler's
own `except` turns into the retryable `False`, touching nothing but
the event row: it does not route to the failure path either. -/
theorem success_webhook_raises_before_verification
    (verify verify2 : String → Except String VerifData) (now : Nat)
    (db : DB) (ev : WebhookEvent) (r : String) (o : Order) (v : VerifData)
    (hev : ev.event = some "charge.success")
    (href : refOf (ev.data.getD WebhookData.empty).reference = some r)
    (ho : db.findOrder r = some o)
    (hfresh : ∀ e ∈ db.events, e.event_id = eventIdOf ev → e.processed = false)
    (hv : verify r = Except.ok v)
    (hvs : v.status ≠ "success") :
    (∃ msg, (process_webhook_event verify now db ev).1 = Except.error msg) ∧
    process_webhook_event verify now db ev = process_webhook_event verify2 now db ev ∧
    (process_webhook_event verify now db ev).2.findOrder r = some o ∧
    process_successful_payment_step verify now db (ev.data.getD WebhookData.empty)
        (eventIdOf ev) =
      (false, db.updateEvent (eventIdOf ev)
        (fun e => { e with order_ref := some r })) := by
  rw [process_fresh_event_raises verify now db ev hfresh,
    process_fresh_event_raises verify2 now db ev hfresh]
  refine ⟨⟨_, rfl⟩, rfl, ?_, ?_⟩
  · exact (get_or_create_event_findOrder db _ ev.event ev r).trans ho
  · exact success_step_verification_mismatch verify now db
      (ev.data.getD WebhookData.empty) (eventIdOf ev) r o v href ho hv hvs

/-- Concrete order for C1: pending, resolved by reference `ref-1`. -/
def oC1 : Order := { payment_reference := "ref-1", user := some "u1" }

/-- Concrete store for C1. -/
def dbC1 : DB := { orders := [oC1] }

/-- Concrete `charge.success` webhook for C1. -/
def evC1 : WebhookEvent :=
  { event := some "charge.success",
    data := some { id := some "evt-1", reference := some "ref-1" } }

/-- Concrete gateway stub for C1: verification reports `failed`. -/
def verifyC1 : String → Except String VerifData :=
  fun _ => Except.ok { status := "failed", gateway_response := "declined" }

/-- A second gateway stub for C1 reporting `success`: the pipeline's
outcome does not depend on which stub is installed, because the raise
happens before any verification. -/
def verifyC1b : String → Except String VerifData :=
  fun _ => Except.ok { status := "success", gateway_response := "ok" }

/-- C1 counterexample: at this concrete input the webhook claims
`charge.success`, the order exists, and verification would return
`failed`; the pipeline raises `ValueError` (the task layer sees an
exception and retries) and the order stays `pending`/`pending` — it
does not end in status/payment_status `failed` as the claim requires,
and the event is not routed to the failure path. -/
theorem verification_mismatch_counterexample :
    (∃ msg, (process_webhook_event verifyC1 0 dbC1 evC1).1 = Except.error msg) ∧
    ((process_webhook_event verifyC1 0 dbC1 evC1).2.findOrder "ref-1").map
      Order.payment_status = some "pending" ∧
    ((process_webhook_event verifyC1 0 dbC1 evC1).2.findOrder "ref-1").map
      Order.status = some "pending" :=
  ⟨⟨_, rfl⟩, rfl, rfl⟩

/-- Witness for C1's amended theorem at the concrete C1 input. -/
theorem success_webhook_raises_before_verification_witness :
    (∃ msg, (process_webhook_event verifyC1 0 dbC1 evC1).1 = Except.error msg) ∧
    process_webhook_event verifyC1 0 dbC1 evC1 =
      process_webhook_event verifyC1b 0 dbC1 evC1 ∧
    (process_webhook_event verifyC1 0 dbC1 evC1).2.findOrder "ref-1" = some oC1 ∧
    process_successful_payment_step verifyC1 0 dbC1 (evC1.data.getD WebhookData.empty)
        (eventIdOf evC1) =
      (false, dbC1.updateEvent (eventIdOf evC1)
        (fun e => { e with order_ref := some "ref-1" })) :=
  success_webhook_raises_before_verification verifyC1 verifyC1b 0 dbC1 evC1 "ref-1" oC1
    { status := "failed", gateway_response := "declined" }
    rfl rfl rfl (by simp [dbC1]) rfl (by decide)

theorem find?_replace_txn (l : List PaymentTransaction) (r : String)
    (t t1 : PaymentTransaction)
    (h : l.find? (fun x => x.reference = r) = some t) (h1 : t1.reference = r) :
    (l.map (fun x => if x.reference = r then t1 else x)).find?
      (fun x => x.reference = r) = some t1 := by
  induction l with
  | nil => simp at h
  | cons a s ih =>
    rw [List.map_cons]
    by_cases ha : a.reference = r
    · rw [if_pos ha, List.find?_cons_of_pos _ (by simp [h1])]
    · rw [if_neg ha, List.find?_cons_of_neg _ (by simp [ha])]
      exact ih (by rwa [List.find?_cons_of_neg _ (by simp [ha])] at h)

theorem upsertFailed_ledger (db : DB) (o : Order) (data : WebhookData) (r : String) :
    (db.upsertPaymentTransactionFailed o data r).ledger = db.ledger := by
  unfold DB.upsertPaymentTransactionFailed
  cases db.payment_transactions.find? (fun t => t.reference = r) <;> rfl

theorem upsertFailed_accounts (db : DB) (o : Order) (data : WebhookData) (r : String) :
    (db.upsertPaymentTransactionFailed o data r).accounts = db.accounts := by
  unfold DB.upsertPaymentTransactionFailed
  cases db.payment_transactions.find? (fun t => t.reference = r) <;> rfl

theorem upsertFailed_failure_emails (db : DB) (o : Order) (data : WebhookData)
    (r : String) :
    (db.upsertPaymentTransactionFailed o data r).failure_emails = db.failure_emails := by
  unfold DB.upsertPaymentTransactionFailed
  cases db.payment_transactions.find? (fun t => t.reference = r) <;> rfl

theorem upsertFailed_confirmation_emails (db : DB) (o : Order) (data : WebhookData)
    (r : String) :
    (db.upsertPaymentTransactionFailed o data r).confirmation_emails =
      db.confirmation_emails := by
  unfold DB.upsertPaymentTransactionFailed
  cases db.payment_transactions.find? (fun t => t.reference = r) <;> rfl

theorem upsertFailed_findOrder (db : DB) (o : Order) (data : WebhookData)
    (r ref : String) :
    (db.upsertPaymentTransactionFailed o data r).findOrder ref = db.findOrder ref := by
  unfold DB.upsertPaymentTransactionFailed
  cases db.payment_transactions.find? (fun t => t.reference = r) <;> rfl

theorem find?_append_none {A : Type} (l l2 : List A) (p : A → Bool)
    (h : l.find? p = none) : (l ++ l2).find? p = l2.find? p := by
  induction l with
  | nil => rfl
  | cons a s ih =>
    have hpa := List.find?_eq_none.mp h a (List.mem_cons_self a s)
    have hs : s.find? p = none :=
      List.find?_eq_none.mpr (fun x hx => List.find?_eq_none.mp h x (List.mem_cons_of_mem a hx))
    rw [List.cons_append, List.find?_cons_of_neg _ hpa]
    exact ih hs

theorem upsertFailed_eq_none (db : DB) (o : Order) (data : WebhookData) (r : String)
    (hf : db.payment_transactions.find? (fun t => t.reference = r) = none) :
    db.upsertPaymentTransactionFailed o data r =
      { db with payment_transactions := db.payment_transactions ++
          [{ order_ref := o.payment_reference, reference := r,
             paystack_reference := data.id.getD "",
             amount := ((data.amount.getD 0 : Int) : Rat) / 100,
             currency := data.currency.getD "NGN", status := "failed",
             gateway_response := data.gateway_response.getD "",
             channel := data.channel.getD "" }] } := by
  unfold DB.upsertPaymentTransactionFailed
  rw [hf]

theorem upsertFailed_eq_some (db : DB) (o : Order) (data : WebhookData) (r : String)
    (t : PaymentTransaction)
    (hf : db.payment_transactions.find? (fun x => x.reference = r) = some t) :
    db.upsertPaymentTransactionFailed o data r =
      { db with
        payment_transactions :=
          db.payment_transactions.map (fun x =>
            if x.reference = r then
              { t with status := "failed",
                       gateway_response := data.gateway_response.getD "" }
            else x) } := by
  unfold DB.upsertPaymentTransactionFailed
  rw [hf]

/-- The upserted payment transaction of the failure path is findable
by reference and marked failed, whether it was created or updated. -/
theorem find?_upsertFailed (db : DB) (o : Order) (data : WebhookData) (r : String) :
    ∃ t, (db.upsertPaymentTransactionFailed o data r).payment_transactions.find?
      (fun x => x.reference = r) = some t ∧ t.status = "failed" := by
  rcases hf : db.payment_transactions.find? (fun x => x.reference = r) with _ | t
  · rw [upsertFailed_eq_none db o data r hf]
    dsimp only
    rw [find?_append_none _ _ _ hf, List.find?_cons_of_pos _ (by simp)]
    exact ⟨_, rfl, rfl⟩
  · rw [upsertFailed_eq_some db o data r t hf]
    dsimp only
    have htr : t.reference = r := by simpa using List.find?_some hf
    exact ⟨_, find?_replace_txn db.payment_transactions r t _ hf (by exact htr), rfl⟩

/-- The failure-path handler on a resolving reference: upserts the
transaction as failed and saves the order as failed, returning
success.  It does not call `handle_failed_payment`. -/
theorem failed_step_run (dbx : DB) (data : WebhookData) (eid : String) (r : String)
    (o : Order)
    (href : refOf data.reference = some r)
    (hox : dbx.findOrder r = some o) :
    process_failed_payment_step dbx data eid =
      (true, (((dbx.updateEvent eid (fun e => { e with order_ref := some r
        })).upsertPaymentTransactionFailed o data r).saveOrder
        { o with payment_status := "failed", status := "failed" })) := by
  unfold process_failed_payment_step
  rw [href]
  dsimp only
  rw [hox]

/-- C2 (amended): for a `charge.failed` or `charge.abandoned` webhook
whose event id has no processed row yet and whose reference resolves
to an existing order, `process_webhook_event` raises before the
failure handler is ever reached: the outcome is the propagated
`ValueError` and the order, loyalty ledger, accounts and both e-mail
queues are untouched.  The failure handler itself — dead code under
the broken attempt counter — upserts the payment transaction as failed
and marks the order status/payment_status failed directly, without
invoking `Order.handle_failed_payment`: even there the loyalty ledger
and accounts stay untouched (no `reversal` row, no points credited
back) and no failure notification is enqueued. -/
theorem failed_webhook_no_reversal (verify : String → Except String VerifData)
    (now : Nat) (db : DB) (ev : WebhookEvent) (r : String) (o : Order)
    (hev : ev.event = some "charge.failed" ∨ ev.event = some "charge.abandoned")
    (href : refOf (ev.data.getD WebhookData.empty).reference = some r)
    (ho : db.findOrder r = some o)
    (hfresh : ∀ e ∈ db.events, e.event_id = eventIdOf ev → e.processed = false) :
    (∃ msg, (process_webhook_event verify now db ev).1 = Except.error msg) ∧
    (process_webhook_event verify now db ev).2.findOrder r = some o ∧
    (process_webhook_event verify now db ev).2.ledger = db.ledger ∧
    (process_webhook_event verify now db ev).2.accounts = db.accounts ∧
    (process_webhook_event verify now db ev).2.failure_emails = db.failure_emails ∧
    (process_webhook_event verify now db ev).2.confirmation_emails =
      db.confirmation_emails ∧
    (process_failed_payment_step db (ev.data.getD WebhookData.empty)
      (eventIdOf ev)).1 = true ∧
    (process_failed_payment_step db (ev.data.getD WebhookData.empty)
        (eventIdOf ev)).2.findOrder r =
      some { o with payment_status := "failed", status := "failed" } ∧
    (∃ t, (process_failed_payment_step db (ev.data.getD WebhookData.empty)
        (eventIdOf ev)).2.payment_transactions.find?
        (fun x => x.reference = r) = some t ∧ t.status = "failed") ∧
    (process_failed_payment_step db (ev.data.getD WebhookData.empty)
      (eventIdOf ev)).2.ledger = db.ledger ∧
    (process_failed_payment_step db (ev.data.getD WebhookData.empty)
      (eventIdOf ev)).2.accounts = db.accounts ∧
    (process_failed_payment_step db (ev.data.getD WebhookData.empty)
      (eventIdOf ev)).2.failure_emails = db.failure_emails ∧
    (process_failed_payment_step db (ev.data.getD WebhookData.empty)
      (eventIdOf ev)).2.confirmation_emails = db.confirmation_emails := by
  rw [process_fresh_event_raises verify now db ev hfresh]
  have hor : o.payment_reference = r := by
    have := List.find?_some ho
    simpa using this
  rw [failed_step_run db (ev.data.getD WebhookData.empty) (eventIdOf ev) r o href ho]
  refine ⟨⟨_, rfl⟩, ?_, ?_, ?_, ?_, ?_, rfl, ?_, ?_, ?_, ?_, ?_, ?_⟩
  · exact (get_or_create_event_findOrder db _ ev.event ev r).trans ho
  · exact get_or_create_event_ledger db _ ev.event ev
  · exact get_or_create_event_accounts db _ ev.event ev
  · exact get_or_create_event_failure_emails db _ ev.event ev
  · exact get_or_create_event_confirmation_emails db _ ev.event ev
  · exact findOrder_saveOrder _ _ o _
      (by rw [upsertFailed_findOrder]
          exact ho)
      (by exact hor)
  · obtain ⟨t, ht1, ht2⟩ := find?_upsertFailed
      (db.updateEvent (eventIdOf ev) (fun e => { e with order_ref := some r }))
      o (ev.data.getD WebhookData.empty) r
    exact ⟨t, by exact ht1, ht2⟩
  · exact upsertFailed_ledger _ o _ r
  · exact upsertFailed_accounts _ o _ r
  · exact upsertFailed_failure_emails _ o _ r
  · exact upsertFailed_confirmation_emails _ o _ r

/-- Concrete order for C2: pending, 50 loyalty points consumed. -/
def oC2 : Order :=
  { payment_reference := "ref-2", order_number := "N2", user := some "u2",
    loyalty_points_used := 50 }

/-- Concrete loyalty account for C2 (the 50 used points belong to this
account). -/
def acctC2 : LoyaltyAccount :=
  { user := "u2", total_points_earned := 50, total_points_used := 50,
    current_balance := 0 }

/-- Concrete store for C2; a payment transaction row for the reference
already exists (e.g. from a prior attempt). -/
def dbC2 : DB :=
  { orders := [oC2], accounts := [acctC2],
    payment_transactions := [{ order_ref := "ref-2", reference := "ref-2" }],
    ledger := [{ account := "u2", transaction_type := "used", points := 50,
                 order_ref := some "ref-2" }] }

/-- Concrete `charge.failed` webhook for C2. -/
def evC2 : WebhookEvent :=
  { event := some "charge.failed",
    data := some { id := some "evt-2", reference := some "ref-2" } }

/-- Gateway stub for C2 (never consulted on the failure path). -/
def verifyC2 : String → Except String VerifData :=
  fun _ => Except.error "gateway unavailable"

/-- C2 counterexample: at this concrete input a `charge.failed`
webhook for an order that consumed 50 loyalty points raises out of the
pipeline with the order still pending, no `reversal` ledger row, no
failure e-mail and the loyalty account still debited; and even the
failure handler taken on its own marks the order failed without
writing a `reversal` row or enqueueing a failure e-mail —
`handle_failed_payment`'s effects are absent everywhere. -/
theorem failed_webhook_counterexample :
    (∃ msg, (process_webhook_event verifyC2 0 dbC2 evC2).1 = Except.error msg) ∧
    ((process_webhook_event verifyC2 0 dbC2 evC2).2.findOrder "ref-2").map
      Order.payment_status = some "pending" ∧
    (process_webhook_event verifyC2 0 dbC2 evC2).2.ledger.countP
      (reversalTxFor "ref-2") = 0 ∧
    (process_webhook_event verifyC2 0 dbC2 evC2).2.failure_emails = [] ∧
    (process_webhook_event verifyC2 0 dbC2 evC2).2.accounts = [acctC2] ∧
    (process_failed_payment_step dbC2 (evC2.data.getD WebhookData.empty)
      (eventIdOf evC2)).1 = true ∧
    ((process_failed_payment_step dbC2 (evC2.data.getD WebhookData.empty)
        (eventIdOf evC2)).2.findOrder "ref-2").map
      Order.payment_status = some "failed" ∧
    (process_failed_payment_step dbC2 (evC2.data.getD WebhookData.empty)
        (eventIdOf evC2)).2.ledger.countP (reversalTxFor "ref-2") = 0 ∧
    (process_failed_payment_step dbC2 (evC2.data.getD WebhookData.empty)
      (eventIdOf evC2)).2.failure_emails = [] ∧
    (process_failed_payment_step dbC2 (evC2.data.getD WebhookData.empty)
      (eventIdOf evC2)).2.accounts = [acctC2] :=
  ⟨⟨_, rfl⟩, rfl, rfl, rfl, rfl, rfl, rfl, rfl, rfl, rfl⟩

/-- Witness for C2's amended theorem at the concrete C2 input. -/
theorem failed_webhook_no_reversal_witness :
    (∃ msg, (process_webhook_event verifyC2 0 dbC2 evC2).1 = Except.error msg) ∧
    (process_webhook_event verifyC2 0 dbC2 evC2).2.findOrder "ref-2" = some oC2 ∧
    (process_webhook_event verifyC2 0 dbC2 evC2).2.ledger = dbC2.ledger ∧
    (process_webhook_event verifyC2 0 dbC2 evC2).2.accounts = dbC2.accounts ∧
    (process_webhook_event verifyC2 0 dbC2 evC2).2.failure_emails =
      dbC2.failure_emails ∧
    (process_webhook_event verifyC2 0 dbC2 evC2).2.confirmation_emails =
      dbC2.confirmation_emails ∧
    (process_failed_payment_step dbC2 (evC2.data.getD WebhookData.empty)
      (eventIdOf evC2)).1 = true ∧
    (process_failed_payment_step dbC2 (evC2.data.getD WebhookData.empty)
        (eventIdOf evC2)).2.findOrder "ref-2" =
      some { oC2 with payment_status := "failed", status := "failed" } ∧
    (∃ t, (process_failed_payment_step dbC2 (evC2.data.getD WebhookData.empty)
        (eventIdOf evC2)).2.payment_transactions.find?
        (fun x => x.reference = "ref-2") = some t ∧ t.status = "failed") ∧
    (process_failed_payment_step dbC2 (evC2.data.getD WebhookData.empty)
      (eventIdOf evC2)).2.ledger = dbC2.ledger ∧
    (process_failed_payment_step dbC2 (evC2.data.getD WebhookData.empty)
      (eventIdOf evC2)).2.accounts = dbC2.accounts ∧
    (process_failed_payment_step dbC2 (evC2.data.getD WebhookData.empty)
      (eventIdOf evC2)).2.failure_emails = dbC2.failure_emails ∧
    (process_failed_payment_step dbC2 (evC2.data.getD WebhookData.empty)
      (eventIdOf evC2)).2.confirmation_emails = dbC2.confirmation_emails :=
  failed_webhook_no_reversal verifyC2 0 dbC2 evC2 "ref-2" oC2 (Or.inl rfl) rfl rfl
    (by simp [dbC2])

/-- A webhook whose event id already has a processed row in the store
returns success immediately and changes nothing (the dedup early
return).  The hypothesis is satisfiable only for a row written outside
`process_webhook_event` — e.g. flipped by hand in the admin — since
the processor itself never marks a row processed. -/
theorem process_already_processed (verify : String → Except String VerifData)
    (now : Nat) (db : DB) (ev : WebhookEvent) (e : PaystackEvent)
    (hfind : db.findEvent (eventIdOf ev) = some e)
    (hproc : e.processed = true) :
    process_webhook_event verify now db ev = (Except.ok true, db) := by
  simp only [eventIdOf] at hfind
  unfold process_webhook_event
  dsimp only
  unfold DB.get_or_create_event
  rw [hfind]
  dsimp only
  rw [if_pos ⟨rfl, hproc⟩]

/-- Concrete order for C5. -/
def oC5 : Order := { payment_reference := "ref-5" }

/-- Concrete store for C5 (a payment transaction row for the reference
already exists). -/
def dbC5 : DB :=
  { orders := [oC5],
    payment_transactions := [{ order_ref := "ref-5", reference := "ref-5" }] }

/-- Concrete `charge.failed` webhook for C5. -/
def evC5 : WebhookEvent :=
  { event := some "charge.failed",
    data := some { id := some "evt-5", reference := some "ref-5" } }

/-- Gateway stub for C5 (the raise happens before any gateway use). -/
def verifyC5 : String → Except String VerifData :=
  fun _ => Except.error "gateway unavailable"

/-- C5 (code bug): the dedup defense certified by the claim is
unreachable.  `mark_as_processed` always raises (`updated_at` in its
`update_fields` is not a `PaystackEvent` field), so no row is ever
marked processed by the pipeline; worse, `increment_processing_attempts`
raises the same way before any dispatch.  At this concrete input the
first call raises and leaves a single event row that is NOT processed,
the second call for the same event id raises again instead of
returning the claimed immediate success, the store is unchanged by the
retry, and the order never leaves `pending`. -/
theorem webhook_event_never_marked_processed :
    (∃ msg, (process_webhook_event verifyC5 0 dbC5 evC5).1 = Except.error msg) ∧
    (process_webhook_event verifyC5 0 dbC5 evC5).2.events.countP
      (fun e => e.event_id = eventIdOf evC5) = 1 ∧
    ((process_webhook_event verifyC5 0 dbC5 evC5).2.findEvent (eventIdOf evC5)).map
      PaystackEvent.processed = some false ∧
    (∃ msg, (process_webhook_event verifyC5 1
        (process_webhook_event verifyC5 0 dbC5 evC5).2 evC5).1 = Except.error msg) ∧
    (process_webhook_event verifyC5 1
        (process_webhook_event verifyC5 0 dbC5 evC5).2 evC5).2 =
      (process_webhook_event verifyC5 0 dbC5 evC5).2 ∧
    ((process_webhook_event verifyC5 1
        (process_webhook_event verifyC5 0 dbC5 evC5).2 evC5).2.findOrder
      "ref-5").map Order.payment_status = some "pending" :=
  ⟨⟨_, rfl⟩, rfl, rfl, ⟨_, rfl⟩, rfl, rfl⟩

/-- Concrete order for C10. -/
def oC10 : Order := { payment_reference := "ref-10" }

/-- Concrete store for C10 (a payment transaction row for the
reference already exists). -/
def dbC10 : DB :=
  { orders := [oC10],
    payment_transactions := [{ order_ref := "ref-10", reference := "ref-10" }] }

/-- First id-less webhook for C10 (no `data.id` key). -/
def evC10a : WebhookEvent :=
  { event := some "charge.failed", data := some { reference := some "ref-10" } }

/-- Second, distinct id-less webhook for C10. -/
def evC10b : WebhookEvent :=
  { event := some "charge.abandoned", data := some { reference := some "ref-11" } }

/-- Gateway stub for C10 (the raise happens before any gateway use). -/
def verifyC10 : String → Except String VerifData :=
  fun _ => Except.error "gateway unavailable"

/-- C10 (code bug): both id-less payloads are indeed keyed under the
empty-string event id and share the single store row, but the claimed
dedup outcome can never occur: the first id-less event raises
(`increment_processing_attempts`'s `ValueError`) and leaves the shared
row unprocessed, so the second id-less event does not return success
immediately — it raises the same way, with the store unchanged. -/
theorem idless_webhooks_never_reach_dedup :
    eventIdOf evC10a = "" ∧ eventIdOf evC10b = "" ∧
    (∃ msg, (process_webhook_event verifyC10 0 dbC10 evC10a).1 = Except.error msg) ∧
    (process_webhook_event verifyC10 0 dbC10 evC10a).2.events.countP
      (fun e => e.event_id = "") = 1 ∧
    ((process_webhook_event verifyC10 0 dbC10 evC10a).2.findEvent "").map
      PaystackEvent.processed = some false ∧
    (∃ msg, (process_webhook_event verifyC10 1
        (process_webhook_event verifyC10 0 dbC10 evC10a).2 evC10b).1 =
        Except.error msg) ∧
    (process_webhook_event verifyC10 1
        (process_webhook_event verifyC10 0 dbC10 evC10a).2 evC10b).2 =
      (process_webhook_event verifyC10 0 dbC10 evC10a).2 :=
  ⟨rfl, rfl, ⟨_, rfl⟩, rfl, rfl, ⟨_, rfl⟩, rfl⟩

end Cherryl
